import Mathlib

/-!
Verification of the grid-compositor core of the ImageMerger repository
(src/merger.rs), shallowly embedded in Lean.

Modelling conventions:
* `u32` values are modelled as `Nat`. Wrap-around beyond `2^32` is out of
  scope for the stated properties; `u32` subtraction is modelled by `Nat`
  subtraction (the two agree on all states where no underflow occurs, and
  the capacity invariant proved below shows the one subtraction in the
  source never underflows on reachable states).
* the generic subpixel type `P::Subpixel` is modelled as `Nat`, with the
  `Zero::zero` value modelled as `0`; `P::CHANNEL_COUNT` is carried as a
  field of the merger state.
* `Vec<T>` used as a raw container is modelled as `List Nat`.
  `Vec::with_capacity(n)` is modelled as reserving exactly `n` slots; a
  sequence of `push`es followed by `resize_with(capacity, zero)` therefore
  produces `old ++ replicate (max n old.length - old.length) 0` (the `max`
  covers capacity growth in case the pushes exceeded the reservation).
* `image::imageops::overlay` is modelled as a clipped per-pixel copy of the
  top image into the bottom buffer, with `Pixel::blend` modelled as
  replacement (exact for channel formats without an alpha component, such
  as `Luma`, whose `blend` overwrites the destination pixel).
-/

namespace ImageMerger

/-- Model of `image::ImageBuffer<P, Vec<P::Subpixel>>`: a width, a height and
the raw backing container, row-major and channel-interleaved. -/
structure ImageBuffer where
  width : Nat
  height : Nat
  data : List Nat
deriving Repr, DecidableEq

/-- Model of `image::ImageBuffer::from_raw(width, height, container)`: succeeds
exactly when the container is large enough for `channels * width * height`
subpixel slots. -/
def ImageBuffer.from_raw (channels w h : Nat) (container : List Nat) :
    Option ImageBuffer :=
  if channels * (w * h) ≤ container.length then some ⟨w, h, container⟩ else none

/-- The raw slot index at which the channels of pixel `(x, y)` start. -/
def ImageBuffer.pixelIndex (buf : ImageBuffer) (channels x y : Nat) : Nat :=
  channels * (y * buf.width + x)

/-- Read the `channels` raw values of pixel `(x, y)`. -/
def ImageBuffer.getPixel (channels : Nat) (buf : ImageBuffer) (x y : Nat) :
    List Nat :=
  (buf.data.drop (buf.pixelIndex channels x y)).take channels

/-- Overwrite the `channels` raw values of pixel `(x, y)` with `px`. -/
def ImageBuffer.setPixel (channels : Nat) (buf : ImageBuffer) (x y : Nat)
    (px : List Nat) : ImageBuffer :=
  ⟨buf.width, buf.height,
    buf.data.take (buf.pixelIndex channels x y) ++ px
      ++ buf.data.drop (buf.pixelIndex channels x y + channels)⟩

/-- Model of `image::imageops::overlay(bottom, top, x, y)`: copy the top
image's pixels into the bottom buffer at offset `(x, y)`, clipped to the
bottom buffer's bounds, blending modelled as replacement. -/
def overlay (channels : Nat) (bottom top : ImageBuffer) (x y : Nat) :
    ImageBuffer :=
  let rangeW := min top.width (bottom.width - x)
  let rangeH := min top.height (bottom.height - y)
  (List.range rangeH).foldl
    (fun acc j =>
      (List.range rangeW).foldl
        (fun acc2 i =>
          acc2.setPixel channels (x + i) (y + j) (top.getPixel channels i j))
        acc)
    bottom

/-- Model of `Merger<P>` from src/merger.rs. `CHANNEL_COUNT` stands for the
associated constant `P::CHANNEL_COUNT` of the pixel type. The source declares
`last_pasted_index: u32` with the comment that it "starts at -1 if not images
have been pasted"; it is modelled as an integer so that the documented logical
start value is representable. -/
structure Merger where
  CHANNEL_COUNT : Nat
  canvas : ImageBuffer
  image_dimensions : Nat × Nat
  num_images : Nat
  num_images_per_row : Nat
  last_pasted_index : Int
  total_rows : Nat
deriving Repr, DecidableEq

/-- Model of `pasted_images_len`. -/
def pasted_images_len (m : Merger) : Nat :=
  m.num_images

/-- The `new_canvas_dimensions` local of `grow_canvas`: computed AFTER
`total_rows` has been incremented, as `(canvas.width(), canvas.height() *
self.total_rows)` — note the source multiplies the CURRENT canvas height by
the new row count. -/
def Merger.new_canvas_dimensions (m : Merger) : Nat × Nat :=
  (m.canvas.width, m.canvas.height * (m.total_rows + 1))

/-- The `new_container` local of `grow_canvas` just before `from_raw`:
a vector reserved for `CHANNEL_COUNT * (new_width * new_height)` slots, the
old raw contents pushed one by one, then `resize_with(capacity, Zero::zero)`
filling up to the capacity with zeroes. -/
def Merger.new_container (m : Merger) : List Nat :=
  m.canvas.data ++
    List.replicate
      (max (m.CHANNEL_COUNT * (m.new_canvas_dimensions.1 * m.new_canvas_dimensions.2))
          m.canvas.data.length
        - m.canvas.data.length)
      0

/-- Model of `Merger::grow_canvas`: increment `total_rows`, build the new
container, and rebuild the canvas through `from_raw(..).unwrap()`. The `none`
branch models the `unwrap` panic; it is proved unreachable below. -/
def grow_canvas (m : Merger) : Merger :=
  match ImageBuffer.from_raw m.CHANNEL_COUNT m.new_canvas_dimensions.1
      m.new_canvas_dimensions.2 m.new_container with
  | some canvas => { m with canvas := canvas, total_rows := m.total_rows + 1 }
  | none => { m with total_rows := m.total_rows + 1 }

/-- Model of `Merger::get_next_paste_coordinates`: grow when no slot is
available, then return `(index mod num_images_per_row, index div
num_images_per_row)` — the source returns these grid indices directly, without
scaling by the image dimensions. -/
def get_next_paste_coordinates (m : Merger) : (Nat × Nat) × Merger :=
  let available_images := m.num_images_per_row * m.total_rows - m.num_images
  let m2 := if available_images = 0 then grow_canvas m else m
  let current_paste_index := (m2.last_pasted_index + 1).toNat
  let x := current_paste_index % m2.num_images_per_row
  let y := current_paste_index / m2.num_images_per_row
  ((x, y), m2)

/-- Model of `Merger::push`: get the next paste coordinates, overlay the image
onto the canvas there, and bump both counters. The source performs no check of
the pushed image's dimensions and has no error channel (it returns `()`). -/
def push (m : Merger) (image : ImageBuffer) : Merger :=
  let r := get_next_paste_coordinates m
  let m2 := r.2
  let canvas2 := overlay m2.CHANNEL_COUNT m2.canvas image r.1.1 r.1.2
  { m2 with
    canvas := canvas2
    last_pasted_index := m2.last_pasted_index + 1
    num_images := m2.num_images + 1 }

/-- Message of the Rust `todo!()` macro's panic. -/
def todoMessage : String := "not yet implemented"

/-- Model of `Merger::bulk_push`, whose body is `todo!()`: every call fails
immediately with the "not yet implemented" signal and produces no new state. -/
def bulk_push (m : Merger) (images : List ImageBuffer) : Except String Merger :=
  Except.error todoMessage

/-- Model of `Merger::remove_image`, whose body is `todo!()`: every call fails
immediately with the "not yet implemented" signal and produces no new state. -/
def remove_image (m : Merger) (index : Nat) : Except String Merger :=
  Except.error todoMessage

/-- Modelled from the spec: src/merger.rs declares no constructor (the struct
fields are documented but the repository's construction code is not under
src/), so `construct` follows §4.3 of the design: a canvas sized for
`initial_rows` rows of `num_images_per_row` images each, zero-filled;
`num_images = 0`; `last_pasted_index = -1`; `total_rows = initial_rows`. -/
def construct (channels image_width image_height num_images_per_row
    initial_rows : Nat) : Merger :=
  { CHANNEL_COUNT := channels
    canvas :=
      { width := image_width * num_images_per_row
        height := image_height * initial_rows
        data :=
          List.replicate
            (channels * (image_width * num_images_per_row * (image_height * initial_rows)))
            0 }
    image_dimensions := (image_width, image_height)
    num_images := 0
    num_images_per_row := num_images_per_row
    last_pasted_index := -1
    total_rows := initial_rows }

/-- Push a whole list of images in order (repeated `Merger::push`). -/
def pushAll (m : Merger) (images : List ImageBuffer) : Merger :=
  images.foldl push m

/-- A 2x2 one-channel sample image whose subpixels all hold 1. -/
def img1 : ImageBuffer := ⟨2, 2, List.replicate 4 1⟩

/-- A 2x2 one-channel sample image whose subpixels all hold 2. -/
def img2 : ImageBuffer := ⟨2, 2, List.replicate 4 2⟩

/-- A 2x2 one-channel sample image whose subpixels all hold 3. -/
def img3 : ImageBuffer := ⟨2, 2, List.replicate 4 3⟩

/-! ## Helper lemmas about `grow_canvas` and the state bookkeeping -/

lemma new_container_length (m : Merger) :
    m.new_container.length
      = max (m.CHANNEL_COUNT * (m.new_canvas_dimensions.1 * m.new_canvas_dimensions.2))
          m.canvas.data.length := by
  simp [Merger.new_container]

lemma requested_le_new_container_length (m : Merger) :
    m.CHANNEL_COUNT * (m.new_canvas_dimensions.1 * m.new_canvas_dimensions.2)
      ≤ m.new_container.length := by
  rw [new_container_length]
  exact Nat.le_max_left _ _

lemma grow_canvas_eq (m : Merger) :
    grow_canvas m
      = { m with
          canvas :=
            ⟨m.new_canvas_dimensions.1, m.new_canvas_dimensions.2, m.new_container⟩,
          total_rows := m.total_rows + 1 } := by
  have hle := requested_le_new_container_length m
  simp [grow_canvas, ImageBuffer.from_raw, hle]

lemma grow_num (m : Merger) : (grow_canvas m).num_images = m.num_images := by
  rw [grow_canvas_eq]

lemma grow_last (m : Merger) :
    (grow_canvas m).last_pasted_index = m.last_pasted_index := by
  rw [grow_canvas_eq]

lemma grow_nipr (m : Merger) :
    (grow_canvas m).num_images_per_row = m.num_images_per_row := by
  rw [grow_canvas_eq]

lemma grow_rows (m : Merger) : (grow_canvas m).total_rows = m.total_rows + 1 := by
  rw [grow_canvas_eq]

lemma gnpc_num (m : Merger) :
    ((get_next_paste_coordinates m).2).num_images = m.num_images := by
  simp only [get_next_paste_coordinates]
  split
  · rw [grow_num]
  · rfl

lemma gnpc_last (m : Merger) :
    ((get_next_paste_coordinates m).2).last_pasted_index = m.last_pasted_index := by
  simp only [get_next_paste_coordinates]
  split
  · rw [grow_last]
  · rfl

lemma gnpc_nipr (m : Merger) :
    ((get_next_paste_coordinates m).2).num_images_per_row = m.num_images_per_row := by
  simp only [get_next_paste_coordinates]
  split
  · rw [grow_nipr]
  · rfl

lemma gnpc_rows_full (m : Merger)
    (h : m.num_images_per_row * m.total_rows - m.num_images = 0) :
    ((get_next_paste_coordinates m).2).total_rows = m.total_rows + 1 := by
  simp only [get_next_paste_coordinates, h, if_pos]
  rw [grow_rows]

lemma gnpc_rows_not_full (m : Merger)
    (h : ¬ m.num_images_per_row * m.total_rows - m.num_images = 0) :
    ((get_next_paste_coordinates m).2).total_rows = m.total_rows := by
  simp only [get_next_paste_coordinates, h, if_neg, not_false_iff]

lemma push_num (m : Merger) (image : ImageBuffer) :
    (push m image).num_images = m.num_images + 1 := by
  simp only [push]
  rw [gnpc_num]

lemma push_last (m : Merger) (image : ImageBuffer) :
    (push m image).last_pasted_index = m.last_pasted_index + 1 := by
  simp only [push]
  rw [gnpc_last]

lemma push_nipr (m : Merger) (image : ImageBuffer) :
    (push m image).num_images_per_row = m.num_images_per_row := by
  simp only [push]
  rw [gnpc_nipr]

lemma push_rows (m : Merger) (image : ImageBuffer) :
    (push m image).total_rows = ((get_next_paste_coordinates m).2).total_rows := by
  simp only [push]

lemma pushAll_cons (m : Merger) (i : ImageBuffer) (is : List ImageBuffer) :
    pushAll m (i :: is) = pushAll (push m i) is := rfl

lemma push_capacity_step (m : Merger) (image : ImageBuffer)
    (hN : 1 ≤ m.num_images_per_row)
    (h : m.num_images ≤ m.num_images_per_row * m.total_rows) :
    (push m image).num_images
      ≤ (push m image).num_images_per_row * (push m image).total_rows := by
  rw [push_num, push_nipr, push_rows]
  by_cases h0 : m.num_images_per_row * m.total_rows - m.num_images = 0
  · rw [gnpc_rows_full m h0, Nat.mul_succ]
    generalize hT : m.num_images_per_row * m.total_rows = t at h h0 ⊢
    omega
  · rw [gnpc_rows_not_full m h0]
    generalize hT : m.num_images_per_row * m.total_rows = t at h h0 ⊢
    omega

lemma pushAll_capacity (images : List ImageBuffer) :
    ∀ m : Merger, 1 ≤ m.num_images_per_row →
      m.num_images ≤ m.num_images_per_row * m.total_rows →
      (pushAll m images).num_images
        ≤ (pushAll m images).num_images_per_row * (pushAll m images).total_rows := by
  induction images with
  | nil => intro m _ h; exact h
  | cons i is ih =>
      intro m hN h
      rw [pushAll_cons]
      exact ih (push m i) (by rw [push_nipr]; exact hN) (push_capacity_step m i hN h)

lemma pushAll_count (images : List ImageBuffer) :
    ∀ m : Merger, (m.num_images : Int) = m.last_pasted_index + 1 →
      ((pushAll m images).num_images : Int)
        = (pushAll m images).last_pasted_index + 1 := by
  induction images with
  | nil => intro m h; exact h
  | cons i is ih =>
      intro m h
      rw [pushAll_cons]
      refine ih (push m i) ?_
      rw [push_num, push_last]
      push_cast
      omega

/-! ## The claims -/

/-- C1: the claim says `get_next_paste_coordinates` returns pixel coordinates
`(column * image_width, row * image_height)`. It does not: on a compositor
with `image_dimensions = (2, 2)` and two images per row, the coordinates for
the second pushed image (index 1) are the raw grid indices `(1, 0)` rather
than the pixel coordinates `(1 * 2, 0 * 2) = (2, 0)`. -/
theorem paste_coordinates_not_pixel_scaled :
    (get_next_paste_coordinates (push (construct 1 2 2 2 1) img1)).1 = (1, 0)
  ∧ (push (construct 1 2 2 2 1) img1).image_dimensions = (2, 2)
  ∧ ¬ ((get_next_paste_coordinates (push (construct 1 2 2 2 1) img1)).1
        = (1 * 2, 0 * 2)) := by decide

/-- C2: the claim says a growth step on a canvas of height
`image_height * total_rows` yields height `image_height * (total_rows + 1)`.
The source computes the new height as `canvas.height() * new_total_rows`
instead: starting from `image_height = 10` and `total_rows = 2` (canvas height
20), `grow_canvas` sets `total_rows = 3` but the height becomes `20 * 3 = 60`,
not `10 * 3 = 30`; the width is unchanged. -/
theorem grow_canvas_height_multiplies :
    (construct 1 1 10 1 2).canvas.height = 10 * (construct 1 1 10 1 2).total_rows
  ∧ (grow_canvas (construct 1 1 10 1 2)).total_rows = 3
  ∧ (grow_canvas (construct 1 1 10 1 2)).canvas.width
      = (construct 1 1 10 1 2).canvas.width
  ∧ (grow_canvas (construct 1 1 10 1 2)).canvas.height = 60
  ∧ ¬ ((grow_canvas (construct 1 1 10 1 2)).canvas.height
        = 10 * (grow_canvas (construct 1 1 10 1 2)).total_rows) := by decide

/-- C3: for every canvas state whose raw buffer has the expected
`channels * width * height` size, the first `channels * width * height`
elements of the post-growth buffer are exactly the pre-growth buffer's full
raw contents, element-for-element and in order. -/
theorem grow_canvas_preserves_old_contents (m : Merger)
    (h : m.canvas.data.length
        = m.CHANNEL_COUNT * (m.canvas.width * m.canvas.height)) :
    ((grow_canvas m).canvas.data).take
        (m.CHANNEL_COUNT * (m.canvas.width * m.canvas.height))
      = m.canvas.data := by
  rw [grow_canvas_eq]
  simp only [Merger.new_container]
  exact List.take_left' h

/-- Witness for C3 at a concrete compositor. -/
theorem grow_canvas_preserves_old_contents_witness :
    ((grow_canvas (construct 1 1 1 1 1)).canvas.data).take
        ((construct 1 1 1 1 1).CHANNEL_COUNT
          * ((construct 1 1 1 1 1).canvas.width * (construct 1 1 1 1 1).canvas.height))
      = (construct 1 1 1 1 1).canvas.data :=
  grow_canvas_preserves_old_contents (construct 1 1 1 1 1) (by decide)

/-- C4: for every canvas state whose raw buffer has the expected
`channels * width * height` size, everything `grow_canvas` appends beyond the
copied old contents is exactly
`channels * width * (new_height - old_height)` zero slots. -/
theorem grow_canvas_zero_fills_added (m : Merger)
    (h : m.canvas.data.length
        = m.CHANNEL_COUNT * (m.canvas.width * m.canvas.height)) :
    ((grow_canvas m).canvas.data).drop m.canvas.data.length
      = List.replicate
          (m.CHANNEL_COUNT
            * (m.canvas.width * ((grow_canvas m).canvas.height - m.canvas.height)))
          0 := by
  have hH : m.canvas.height ≤ m.canvas.height * (m.total_rows + 1) :=
    Nat.le_mul_of_pos_right _ (Nat.succ_pos _)
  have hLR : m.CHANNEL_COUNT * (m.canvas.width * m.canvas.height)
      ≤ m.CHANNEL_COUNT * (m.canvas.width * (m.canvas.height * (m.total_rows + 1))) :=
    Nat.mul_le_mul (Nat.le_refl _) (Nat.mul_le_mul (Nat.le_refl _) hH)
  rw [grow_canvas_eq]
  simp only [Merger.new_container, Merger.new_canvas_dimensions]
  rw [List.drop_left]
  rw [h, Nat.max_eq_left hLR]
  simp [Nat.mul_succ, Nat.mul_add, Nat.add_sub_cancel]

/-- Witness for C4 at a concrete compositor. -/
theorem grow_canvas_zero_fills_added_witness :
    ((grow_canvas (construct 1 1 1 1 1)).canvas.data).drop
        (construct 1 1 1 1 1).canvas.data.length
      = List.replicate
          ((construct 1 1 1 1 1).CHANNEL_COUNT
            * ((construct 1 1 1 1 1).canvas.width
              * ((grow_canvas (construct 1 1 1 1 1)).canvas.height
                  - (construct 1 1 1 1 1).canvas.height)))
          0 :=
  grow_canvas_zero_fills_added (construct 1 1 1 1 1) (by decide)

/-- C5: the claim says a dimension mismatch is detected before any blit and
reported, leaving the state unchanged. The source's `push` performs no
dimension check and has no error channel: pushing a 5x5 image into a
compositor configured for 10x10 images blits the image (its pixel lands on
the canvas) and increments `num_images` from 0 to 1. -/
theorem push_accepts_mismatched_dimensions :
    (construct 1 10 10 3 1).image_dimensions = (10, 10)
  ∧ pasted_images_len (construct 1 10 10 3 1) = 0
  ∧ pasted_images_len (push (construct 1 10 10 3 1) ⟨5, 5, List.replicate 25 7⟩) = 1
  ∧ ImageBuffer.getPixel 1
      (push (construct 1 10 10 3 1) ⟨5, 5, List.replicate 25 7⟩).canvas 0 0 = [7] := by
  decide

/-- C6: from a freshly constructed compositor (whose `last_pasted_index`
starts at -1), after any sequence of pushes one further `push` increments
`num_images` by exactly 1, and `num_images = last_pasted_index + 1` holds
after it. -/
theorem push_count_tracks_last_pasted_index (channels iw ih n r : Nat)
    (images : List ImageBuffer) (image : ImageBuffer) :
    (construct channels iw ih n r).last_pasted_index = -1
  ∧ (push (pushAll (construct channels iw ih n r) images) image).num_images
      = (pushAll (construct channels iw ih n r) images).num_images + 1
  ∧ ((push (pushAll (construct channels iw ih n r) images) image).num_images : Int)
      = (push (pushAll (construct channels iw ih n r) images) image).last_pasted_index
          + 1 := by
  refine ⟨rfl, push_num _ _, ?_⟩
  have hinv := pushAll_count images (construct channels iw ih n r)
    (by norm_num [construct])
  rw [push_num, push_last]
  push_cast
  omega

/-- C7: with at least one image per row, after any sequence of pushes from a
fresh compositor `num_images ≤ num_images_per_row * total_rows` holds; and
whenever the available-slot count `num_images_per_row * total_rows -
num_images` is zero, `get_next_paste_coordinates` grows the canvas (adding a
row) before computing the coordinate. -/
theorem capacity_never_exceeded (channels iw ih n r : Nat)
    (images : List ImageBuffer) (hN : 1 ≤ n) :
    ((pushAll (construct channels iw ih n r) images).num_images
      ≤ (pushAll (construct channels iw ih n r) images).num_images_per_row
          * (pushAll (construct channels iw ih n r) images).total_rows)
  ∧ ∀ m : Merger, m.num_images_per_row * m.total_rows - m.num_images = 0 →
      ((get_next_paste_coordinates m).2).total_rows = m.total_rows + 1 := by
  constructor
  · refine pushAll_capacity images _ ?_ ?_
    · simpa [construct] using hN
    · simp [construct]
  · exact fun m h => gnpc_rows_full m h

/-- Witness for C7: a one-per-row compositor after a single push is exactly
full, and the next coordinate computation grows the canvas by one row. -/
theorem capacity_never_exceeded_witness :
    ((pushAll (construct 1 2 2 1 1) [img1]).num_images
      ≤ (pushAll (construct 1 2 2 1 1) [img1]).num_images_per_row
          * (pushAll (construct 1 2 2 1 1) [img1]).total_rows)
  ∧ ((get_next_paste_coordinates (pushAll (construct 1 2 2 1 1) [img1])).2).total_rows
      = (pushAll (construct 1 2 2 1 1) [img1]).total_rows + 1 :=
  ⟨(capacity_never_exceeded 1 2 2 1 1 [img1] (by decide)).1,
   (capacity_never_exceeded 1 2 2 1 1 [img1] (by decide)).2
     (pushAll (construct 1 2 2 1 1) [img1]) (by decide)⟩

/-- C8: on a 2-per-row compositor with one initial row, the third push
triggers exactly one growth (`total_rows` goes from 1 to 2 only then), as the
claim says — but contrary to the claim, the blit of that third push lands at
grid coordinate (0, 1) and alters the pixel region of the first placed image:
canvas pixel (0, 1), which the first image set to 1, becomes 3. -/
theorem growth_push_overwrites_previous_region :
    ((push (construct 1 2 2 2 1) img1).total_rows = 1)
  ∧ ((push (push (construct 1 2 2 2 1) img1) img2).total_rows = 1)
  ∧ ((push (push (push (construct 1 2 2 2 1) img1) img2) img3).total_rows = 2)
  ∧ (ImageBuffer.getPixel 1 (push (construct 1 2 2 2 1) img1).canvas 0 1 = [1])
  ∧ (ImageBuffer.getPixel 1
      (push (push (construct 1 2 2 2 1) img1) img2).canvas 0 1 = [1])
  ∧ (ImageBuffer.getPixel 1
      (push (push (push (construct 1 2 2 2 1) img1) img2) img3).canvas 0 1 = [3]) := by
  decide

/-- C9: every call to `bulk_push` and every call to `remove_image` fails on
every input with the `todo!()` "not yet implemented" signal, producing no new
compositor state. -/
theorem bulk_push_remove_image_not_implemented :
    (∀ (m : Merger) (images : List ImageBuffer),
        bulk_push m images = Except.error todoMessage)
  ∧ (∀ (m : Merger) (i : Nat), remove_image m i = Except.error todoMessage) :=
  ⟨fun _ _ => rfl, fun _ _ => rfl⟩

/-- C10: for every compositor state, the container built inside `grow_canvas`
has at least `CHANNEL_COUNT * new_width * new_height` elements, so the
`ImageBuffer::from_raw(..)` call always succeeds and the `.unwrap()` never
panics. -/
theorem from_raw_in_grow_canvas_succeeds (m : Merger) :
    (m.CHANNEL_COUNT * (m.new_canvas_dimensions.1 * m.new_canvas_dimensions.2)
        ≤ m.new_container.length)
  ∧ (ImageBuffer.from_raw m.CHANNEL_COUNT m.new_canvas_dimensions.1
        m.new_canvas_dimensions.2 m.new_container).isSome = true := by
  have hle := requested_le_new_container_length m
  exact ⟨hle, by simp [ImageBuffer.from_raw, hle]⟩

end ImageMerger
